import Mathlib

/-!
Verification of the Skew Hunter frontend against its specification.

Each definition below is a shallow embedding of a function or constant of
the repository (TypeScript React frontend); numbers are modelled as
rationals, JavaScript objects used with reference semantics are modelled
with an explicit heap. Theorems settle the frozen claims about the
program.
-/

namespace SkewHunter

/-! ## Constants (frontend/src/lib/constants.ts) -/

/-- Embedding of `CONFLUENCE_FACTORS` from `lib/constants.ts`. -/
def CONFLUENCE_FACTORS : List String :=
  ["Alpha1", "Alpha2", "PCR", "Volume", "Trend", "OI_Vel", "OI_Flow"]

/-- Embedding of the execution-mode union `'OFF' | 'PAPER' | 'LIVE'`. -/
inductive ExecutionMode where
  | OFF
  | PAPER
  | LIVE
deriving DecidableEq, Repr

/-- Embedding of the broker union `'UPSTOX' | 'DHAN'`. -/
inductive Broker where
  | UPSTOX
  | DHAN
deriving DecidableEq, Repr

/-- Embedding of the keys of `EXIT_REASONS` from `lib/constants.ts`. -/
inductive ExitReason where
  | profit_target
  | trailing_stop
  | initial_stop
  | time_exit
  | mtm_max_loss
  | mtm_profit_protection
  | manual_exit
  | emergency_stop
deriving DecidableEq, Repr

/-- Embedding of the display labels of `EXIT_REASONS`. -/
def exitReasonLabel : ExitReason → String
  | .profit_target => "Target Hit"
  | .trailing_stop => "Trailing Stop"
  | .initial_stop => "Stop Loss"
  | .time_exit => "Time Exit"
  | .mtm_max_loss => "MTM Max Loss"
  | .mtm_profit_protection => "Profit Protection"
  | .manual_exit => "Manual Exit"
  | .emergency_stop => "Emergency Stop"

/-! ## ConditionRow (components/ui/ConditionRow.tsx) -/

/-- Embedding of the `comparison` prop union of `ConditionRow`
(`'gte' | 'lte' | 'gt' | 'lt' | 'eq' | 'in'`). -/
inductive Comparison where
  | gte
  | lte
  | gt
  | lt
  | eq
  | mem
deriving DecidableEq, Repr

/-- Embedding of the props handed to one `ConditionRow` element: the
label, the displayed value, the displayed threshold, the comparison tag
and the `passed` flag, exactly as the dashboard passes them. -/
structure ConditionRow where
  label : String
  value : ℚ
  threshold : ℚ
  comparison : Comparison
  passed : Bool
deriving DecidableEq, Repr

/-! ## Dashboard state and condition cards (pages/Dashboard.tsx) -/

/-- The fields of the websocket state snapshot that the dashboard's
signal cards read. -/
structure DashboardData where
  pcr : ℚ
  rsi : ℚ
  alpha_1_call : ℚ
  alpha_2_call : ℚ
  alpha_1_put : ℚ
  alpha_2_put : ℚ
  quality_score_call : ℚ
  quality_score_put : ℚ
  volume_ratio_call : ℚ
  volume_ratio_put : ℚ
  confluence_call : ℕ
  confluence_put : ℕ
  confluence_conditions_call : List String
  confluence_conditions_put : List String

/-- The per-mode threshold object `data.thresholds`; each field may be
absent (the dashboard falls back to a literal default with `||`). -/
structure Thresholds where
  alpha_1_call : Option ℚ
  alpha_2_call : Option ℚ
  alpha_1_put : Option ℚ
  alpha_2_put : Option ℚ
  min_quality_score : Option ℚ
  volume_ratio_threshold : Option ℚ

/-- JavaScript `x || d` on an optionally-present numeric field: absent
and `0` are both falsy, so both fall back to the default. -/
def jsOr (x : Option ℚ) (d : ℚ) : ℚ :=
  match x with
  | none => d
  | some v => if v = 0 then d else v

/-- The six `ConditionRow`s of the CALL Signal card, in source order. -/
def callConditions (d : DashboardData) (t : Thresholds) : List ConditionRow :=
  [ { label := "Alpha 1", value := d.alpha_1_call,
      threshold := jsOr t.alpha_1_call 0.75, comparison := .gte,
      passed := decide (d.alpha_1_call ≥ jsOr t.alpha_1_call 0.75) },
    { label := "Alpha 2", value := d.alpha_2_call,
      threshold := jsOr t.alpha_2_call 0.73, comparison := .gte,
      passed := decide (d.alpha_2_call ≥ jsOr t.alpha_2_call 0.73) },
    { label := "Quality", value := d.quality_score_call,
      threshold := jsOr t.min_quality_score 75, comparison := .gte,
      passed := decide (d.quality_score_call ≥ jsOr t.min_quality_score 75) },
    { label := "Volume Ratio", value := d.volume_ratio_call,
      threshold := jsOr t.volume_ratio_threshold 1.8, comparison := .gte,
      passed := decide (d.volume_ratio_call ≥ jsOr t.volume_ratio_threshold 1.8) },
    { label := "PCR", value := d.pcr,
      threshold := 1.05, comparison := .gt,
      passed := decide (d.pcr > 1.05) },
    { label := "RSI", value := d.rsi,
      threshold := 75, comparison := .lt,
      passed := decide (d.rsi < 75) } ]

/-- The six `ConditionRow`s of the PUT Signal card, in source order. -/
def putConditions (d : DashboardData) (t : Thresholds) : List ConditionRow :=
  [ { label := "Alpha 1", value := d.alpha_1_put,
      threshold := jsOr t.alpha_1_put 0.75, comparison := .gte,
      passed := decide (d.alpha_1_put ≥ jsOr t.alpha_1_put 0.75) },
    { label := "Alpha 2", value := d.alpha_2_put,
      threshold := jsOr t.alpha_2_put 0.73, comparison := .gte,
      passed := decide (d.alpha_2_put ≥ jsOr t.alpha_2_put 0.73) },
    { label := "Quality", value := d.quality_score_put,
      threshold := jsOr t.min_quality_score 75, comparison := .gte,
      passed := decide (d.quality_score_put ≥ jsOr t.min_quality_score 75) },
    { label := "Volume Ratio", value := d.volume_ratio_put,
      threshold := jsOr t.volume_ratio_threshold 1.8, comparison := .gte,
      passed := decide (d.volume_ratio_put ≥ jsOr t.volume_ratio_threshold 1.8) },
    { label := "PCR", value := d.pcr,
      threshold := 0.95, comparison := .lt,
      passed := decide (d.pcr < 0.95) },
    { label := "RSI", value := d.rsi,
      threshold := 25, comparison := .gt,
      passed := decide (d.rsi > 25) } ]

/-- The CALL confluence badge `{data.confluence_call}/6`: numerator and
displayed denominator. -/
def callConfluenceBadge (d : DashboardData) : ℕ × ℕ :=
  (d.confluence_call, 6)

/-- The PUT confluence badge `{data.confluence_put}/6`. -/
def putConfluenceBadge (d : DashboardData) : ℕ × ℕ :=
  (d.confluence_put, 6)

/-- The factor badge strip of the CALL card: one badge per catalogue
factor, highlighted when the factor is in `confluence_conditions_call`. -/
def callFactorBadges (d : DashboardData) : List (String × Bool) :=
  CONFLUENCE_FACTORS.map (fun f => (f, d.confluence_conditions_call.contains f))

/-- The factor badge strip of the PUT card. -/
def putFactorBadges (d : DashboardData) : List (String × Bool) :=
  CONFLUENCE_FACTORS.map (fun f => (f, d.confluence_conditions_put.contains f))

/-! ## WebSocket state subscription (hooks/useWebSocket.ts) -/

/-- A parsed message received on the state subscription: its `type`
field plus the rest of the parsed document, abstracted as a natural
number identifier (the handler never inspects anything but `type`). -/
structure WsMessage where
  type : String
  payload : ℕ
deriving DecidableEq, Repr

/-- Whether a message is a data snapshot, i.e. its type is neither
`'ping'` nor `'pong'` — the guard of the `onmessage` handler. -/
def isDataMessage (m : WsMessage) : Bool :=
  m.type != "ping" && m.type != "pong"

/-- The `onmessage` handler: a non-ping/pong message replaces the held
`data` wholesale; ping/pong messages leave it untouched. -/
def onMessage (st : Option WsMessage) (m : WsMessage) : Option WsMessage :=
  if isDataMessage m then some m else st

/-- The snapshot held after processing a sequence of received messages
in order, starting from `init` (`data: null` at connect). -/
def processMessages (init : Option WsMessage) (msgs : List WsMessage) :
    Option WsMessage :=
  msgs.foldl onMessage init

/-- The snapshot the claim describes: the most recently received message
whose type is neither ping nor pong, or the initial value when no such
message arrived. -/
def lastDataMessage (init : Option WsMessage) (msgs : List WsMessage) :
    Option WsMessage :=
  match (msgs.filter isDataMessage).getLast? with
  | some m => some m
  | none => init

/-! ## Orphan resolution (hooks/useEngine.ts, handleOrphan) -/

/-- Embedding of the action union `'RECOVER' | 'EXIT' | 'IGNORE'` of
`handleOrphan`. -/
inductive OrphanAction where
  | RECOVER
  | EXIT
  | IGNORE
deriving DecidableEq, Repr

/-- The wire string sent for each orphan action. -/
def orphanActionString : OrphanAction → String
  | .RECOVER => "RECOVER"
  | .EXIT => "EXIT"
  | .IGNORE => "IGNORE"

/-- The list of all orphan actions (the type is closed: see
`c7_orphan_actions`). -/
def allOrphanActions : List OrphanAction :=
  [.RECOVER, .EXIT, .IGNORE]

/-- The body of the `POST /api/orphan/recover` request built by
`handleOrphan`: the chosen action plus the optional trade data. -/
structure OrphanRequestBody where
  action : String
  trade_data : Option String
deriving DecidableEq, Repr

/-- Embedding of `handleOrphan`: serialises the action and trade data
into the resolve-orphan request body. -/
def handleOrphanBody (a : OrphanAction) (tradeData : Option String) :
    OrphanRequestBody :=
  { action := orphanActionString a, trade_data := tradeData }

/-! ## Setup wizard start sequence (pages/Setup.tsx, handleStart) -/

/-- The body of the `POST /api/engine/start` request built by
`startEngine` in `useEngine.ts` from the wizard state. -/
structure StartRequestBody where
  token : String
  capital : ℚ
  execution_mode : ExecutionMode
  broker : Broker
  dhan_token : Option String
  dhan_client_id : Option String
deriving DecidableEq, Repr

/-- The externally observable steps `handleStart` performs, in order. -/
inductive SetupEvent where
  | validationError (msg : String)
  | setStep (step : String)
  | startRequest (body : StartRequestBody)
  | orphanCheck (hasOrphan : Bool)
  | resolveOrphan (action : OrphanAction)
  | navigate (route : String)
deriving DecidableEq, Repr

/-- Whether a setup event is a resolve-orphan request. -/
def SetupEvent.isResolveOrphan : SetupEvent → Bool
  | .resolveOrphan _ => true
  | _ => false

/-- Whether a setup event is an engine-start request. -/
def SetupEvent.isStartRequest : SetupEvent → Bool
  | .startRequest _ => true
  | _ => false

/-- Embedding of `handleStart` as the ordered trace of its observable
steps. `hasOrphan` is the `has_orphan` flag returned by the
`GET /api/orphan` call; `startOk` is whether `startEngine` resolved
(on rejection the catch branch returns to the execution step). -/
def handleStart (token : String) (capital : ℚ) (executionMode : ExecutionMode)
    (broker : Broker) (dhanToken dhanClientId : String)
    (confirmText : String) (hasOrphan : Bool) (startOk : Bool) :
    List SetupEvent :=
  if executionMode = .LIVE ∧ confirmText ≠ "CONFIRM" then
    [.validationError "Please type CONFIRM to enable live trading"]
  else
    .setStep "starting" ::
    .startRequest
      { token := token, capital := capital, execution_mode := executionMode,
        broker := broker,
        dhan_token := if broker = .DHAN then some dhanToken else none,
        dhan_client_id := if broker = .DHAN then some dhanClientId else none } ::
    (if startOk then
      [.orphanCheck hasOrphan, .navigate "/dashboard"]
    else
      [.setStep "execution"])

/-! ## Trade history page (pages/History.tsx) -/

/-- Embedding of the `Trade` record loaded from `GET /api/trades` (the
fields the history page reads). -/
structure HistoryTrade where
  trade_id : ℕ
  date : String
  trade_type : String
  strike : ℚ
  entry_price : ℚ
  exit_price : ℚ
  qty : ℚ
  pnl_rupees : ℚ
  pnl_percent : ℚ
  exit_reason : String
  signal_path : String
deriving DecidableEq, Repr

/-- The win/loss filter buttons `'all' | 'wins' | 'losses'`. -/
inductive HistoryFilter where
  | all
  | wins
  | losses
deriving DecidableEq, Repr

/-- The predicate of `filteredTrades` in `History.tsx`: drop the trade
when the wins filter is on and P&L ≤ 0, when the losses filter is on and
P&L > 0, or when a date filter is set and the date differs. -/
def tradePassesFilter (filter : HistoryFilter) (dateFilter : String)
    (t : HistoryTrade) : Bool :=
  if filter = .wins ∧ t.pnl_rupees ≤ 0 then false
  else if filter = .losses ∧ t.pnl_rupees > 0 then false
  else if dateFilter ≠ "" ∧ t.date ≠ dateFilter then false
  else true

/-- Embedding of `filteredTrades`. -/
def filteredTrades (trades : List HistoryTrade) (filter : HistoryFilter)
    (dateFilter : String) : List HistoryTrade :=
  trades.filter (tradePassesFilter filter dateFilter)

/-- The statistics computed by the history page over the filtered
trades (the count fields of `stats`). -/
structure HistoryStats where
  totalTrades : ℕ
  wins : ℕ
  losses : ℕ
  totalPnl : ℚ
deriving DecidableEq, Repr

/-- Embedding of the `stats` object: wins are trades with strictly
positive rupee P&L, losses are the rest. -/
def historyStats (ft : List HistoryTrade) : HistoryStats :=
  { totalTrades := ft.length,
    wins := (ft.filter (fun t => decide (t.pnl_rupees > 0))).length,
    losses := (ft.filter (fun t => decide (t.pnl_rupees ≤ 0))).length,
    totalPnl := ft.foldl (fun sum t => sum + t.pnl_rupees) 0 }

/-! ## ProgressBar (components/ui/ProgressBar.tsx) -/

/-- Embedding of the fill-percentage computation of `ProgressBar`:
`Math.min(Math.max(((value - min) / range) * 100, 0), 100)`. -/
def progressPercentage (value mn mx : ℚ) : ℚ :=
  min (max (((value - mn) / (mx - mn)) * 100) 0) 100

/-- The rendered bar width (the `width: percentage%` inline style). -/
def progressBarWidth (value mn mx : ℚ) : ℚ :=
  progressPercentage value mn mx

/-! ## Exit-condition evaluation (backend trade lifecycle)

The backend exit evaluator (`backend/trading/`) is not under `src/`;
only its exit-reason vocabulary (`EXIT_REASONS` in the frontend) is.
The definitions in this section are therefore modelled from the spec. -/

/-- Modelled from the spec: the per-tick inputs of the exit evaluation
of §4.3 — the manual/emergency request flags, the mark-to-market loss
against its configured maximum, the price against the current (initial
or trailing) stop, the clock against the scheduled time exit, the
unrealized profit against the profit target, the profit-protection
trigger/percentage against the peak, and the minimum-hold clock.
The backend module holding this state is not under `src/`. -/
structure ExitTickState where
  emergencyExitRequested : Bool
  manualExitRequested : Bool
  mtmLoss : ℚ
  mtmMaxLoss : ℚ
  price : ℚ
  stopPrice : ℚ
  trailingActive : Bool
  now : ℕ
  timeExitAt : ℕ
  profitPct : ℚ
  profitTargetPct : ℚ
  mtm : ℚ
  peakMtm : ℚ
  protectTrigger : ℚ
  protectPct : ℚ
  holdSeconds : ℕ
  minHoldSeconds : ℕ

/-- Modelled from the spec: condition 2, mark-to-market loss at or past
the configured maximum loss. -/
def condMtmMaxLoss (s : ExitTickState) : Bool :=
  decide (s.mtmLoss ≥ s.mtmMaxLoss)

/-- Modelled from the spec: condition 3, price has crossed the (initial
or trailing) stop. -/
def condStopCrossed (s : ExitTickState) : Bool :=
  decide (s.price ≤ s.stopPrice)

/-- Modelled from the spec: condition 4, the scheduled time exit has
been reached. -/
def condTimeExit (s : ExitTickState) : Bool :=
  decide (s.now ≥ s.timeExitAt)

/-- Modelled from the spec: condition 5, unrealized profit at or past
the profit target. -/
def condProfitTarget (s : ExitTickState) : Bool :=
  decide (s.profitPct ≥ s.profitTargetPct)

/-- Modelled from the spec: condition 6, the profit-protection trigger
has been reached and price has pulled back below the protection
percentage of the peak. -/
def condProfitProtection (s : ExitTickState) : Bool :=
  decide (s.peakMtm ≥ s.protectTrigger) && decide (s.mtm < s.protectPct * s.peakMtm)

/-- Modelled from the spec: the minimum-hold duration has elapsed, so
conditions other than (1) and (2) are no longer suppressed. -/
def minHoldElapsed (s : ExitTickState) : Bool :=
  decide (s.holdSeconds ≥ s.minHoldSeconds)

/-- The stop exit reason recorded when condition 3 fires: trailing or
initial stop depending on whether trailing is active (the two stop keys
of `EXIT_REASONS`). -/
def stopReason (s : ExitTickState) : ExitReason :=
  if s.trailingActive then .trailing_stop else .initial_stop

/-- Modelled from the spec: the prioritized exit evaluation of §4.3 —
emergency request, then maximum mark-to-market loss, then (once the
minimum hold has elapsed) stop crossed, scheduled time exit, profit
target, profit protection, and finally a non-urgent manual request;
the first true condition fires. The backend evaluator is not under
`src/`. -/
def checkExitConditions (s : ExitTickState) : Option ExitReason :=
  if s.emergencyExitRequested then some .emergency_stop
  else if condMtmMaxLoss s then some .mtm_max_loss
  else if !minHoldElapsed s then none
  else if condStopCrossed s then some (stopReason s)
  else if condTimeExit s then some .time_exit
  else if condProfitTarget s then some .profit_target
  else if condProfitProtection s then some .mtm_profit_protection
  else if s.manualExitRequested then some .manual_exit
  else none

/-- The exit conditions in their fixed priority order, paired with the
reason each would record; conditions 3–7 are gated by the minimum-hold
duration as §4.3 prescribes. -/
def prioritizedConditions (s : ExitTickState) : List (Bool × ExitReason) :=
  [ (s.emergencyExitRequested, .emergency_stop),
    (condMtmMaxLoss s, .mtm_max_loss),
    (minHoldElapsed s && condStopCrossed s, stopReason s),
    (minHoldElapsed s && condTimeExit s, .time_exit),
    (minHoldElapsed s && condProfitTarget s, .profit_target),
    (minHoldElapsed s && condProfitProtection s, .mtm_profit_protection),
    (minHoldElapsed s && s.manualExitRequested, .manual_exit) ]

/-- The first condition of a prioritized list that is true, with the
reason it records. -/
def firstFiring (l : List (Bool × ExitReason)) : Option ExitReason :=
  l.findSome? (fun bc => if bc.1 then some bc.2 else none)

/-! ## Settings page configuration editing (pages/Settings.tsx)

JavaScript objects are reference values, and `updateValue` relies on
that: `{ ...config }` copies only the top level, then the loop walks
into the (shared) nested section objects and assigns the final field in
place. The model therefore uses an explicit heap of objects addressed
by naturals. -/

/-- The address of an object in the heap. -/
abbrev Addr := ℕ

/-- A JavaScript value as the config document uses them: a number, a
string, or a reference to an object in the heap. -/
inductive JVal where
  | num (q : ℚ)
  | str (s : String)
  | ref (a : Addr)
deriving DecidableEq, Repr

/-- A JavaScript object: an ordered list of fields (keys unique). -/
abbrev JObj := List (String × JVal)

/-- The heap: an association of addresses to objects. -/
abbrev Heap := List (Addr × JObj)

/-- Look up the object at an address. -/
def heapGet (h : Heap) (a : Addr) : Option JObj :=
  match h with
  | [] => none
  | (b, o) :: rest => if b = a then some o else heapGet rest a

/-- Overwrite the object stored at an address. -/
def heapSet (h : Heap) (a : Addr) (o : JObj) : Heap :=
  h.map (fun e => if e.1 = a then (e.1, o) else e)

/-- Read a field of an object. -/
def objGet (o : JObj) (k : String) : Option JVal :=
  match o with
  | [] => none
  | (k2, v) :: rest => if k2 = k then some v else objGet rest k

/-- Assign a field of an object (the field exists; keys are unique). -/
def objSet (o : JObj) (k : String) (v : JVal) : JObj :=
  o.map (fun e => if e.1 = k then (e.1, v) else e)

/-- Follow a chain of field names through object references, returning
the address reached (the loop `obj = obj[path[i]]` of `updateValue`). -/
def walk (h : Heap) (a : Addr) : List String → Option Addr
  | [] => some a
  | k :: ks =>
    match heapGet h a with
    | none => none
    | some o =>
      match objGet o k with
      | some (JVal.ref b) => walk h b ks
      | _ => none

/-- Embedding of `updateValue(path, value)` from `Settings.tsx`:
`newConfig = { ...config }` allocates a fresh top-level object sharing
every field (so every section reference) with the old one; the loop
walks to the object holding the last path component; the assignment
mutates that object in place. Returns the updated heap and the address
of the new configuration object handed to `setConfig`. -/
def updateValue (h : Heap) (config : Addr) (path : List String) (v : JVal)
    (fresh : Addr) : Option (Heap × Addr) :=
  match path with
  | [] => none
  | p :: ps =>
    match heapGet h config with
    | none => none
    | some topObj =>
      let h1 : Heap := (fresh, topObj) :: h
      match walk h1 fresh (p :: ps).dropLast with
      | none => none
      | some target =>
        match heapGet h1 target with
        | none => none
        | some tobj =>
          some (heapSet h1 target (objSet tobj (List.getLastD ps p) v), fresh)

/-- Read the value at a field path below a configuration object,
dereferencing section objects along the way. -/
def readPath (h : Heap) (a : Addr) (path : List String) : Option JVal :=
  match path with
  | [] => some (JVal.ref a)
  | p :: ps =>
    match walk h a (p :: ps).dropLast with
    | none => none
    | some target =>
      match heapGet h target with
      | none => none
      | some o => objGet o (List.getLastD ps p)

/-- A fully dereferenced configuration document, as serialised into the
body of the whole-document `POST /api/config` request. -/
inductive JTree where
  | num (q : ℚ)
  | str (s : String)
  | dangling
  | node (fields : List (String × JTree))

/-- Dereference a value into a document tree; each reference hop
consumes one unit of fuel. -/
def viewVal (h : Heap) : ℕ → JVal → JTree
  | _, JVal.num q => JTree.num q
  | _, JVal.str s => JTree.str s
  | 0, JVal.ref _ => JTree.dangling
  | n + 1, JVal.ref a =>
    match heapGet h a with
    | none => JTree.dangling
    | some o => JTree.node (o.map (fun kv => (kv.1, viewVal h n kv.2)))

/-- Embedding of `handleSave`: the whole configuration document, fully
dereferenced, is sent in a single `updateConfig(config)` request. -/
def handleSaveBody (h : Heap) (config : Addr) (fuel : ℕ) : JTree :=
  viewVal h fuel (JVal.ref config)

/-- A concrete configuration heap shaped exactly like the `Config`
interface of `Settings.tsx`: the top object at address 0 holds the
scalar fields and references to the per-section objects `MODES`
(itself referencing one object per mode), `RISK`, `EXIT`, `FILTERS`
and `TIMING`. -/
def settingsHeap : Heap :=
  [ (0, [ ("ACTIVE_MODE", JVal.str "BALANCED"),
          ("EXPIRY", JVal.str "2026-02-12"),
          ("MODES", JVal.ref 1),
          ("RISK", JVal.ref 5),
          ("EXIT", JVal.ref 6),
          ("FILTERS", JVal.ref 7),
          ("TIMING", JVal.ref 8),
          ("REFRESH_INTERVAL_SECONDS", JVal.num 3) ]),
    (1, [ ("STRICT", JVal.ref 2),
          ("BALANCED", JVal.ref 3),
          ("RELAXED", JVal.ref 4) ]),
    (2, [ ("alpha_1_call", JVal.num 0.80), ("alpha_1_put", JVal.num 0.80),
          ("alpha_2_call", JVal.num 0.78), ("alpha_2_put", JVal.num 0.78),
          ("min_quality_score", JVal.num 80), ("min_confluence", JVal.num 5),
          ("volume_ratio_threshold", JVal.num 2),
          ("oi_change_velocity", JVal.num 120) ]),
    (3, [ ("alpha_1_call", JVal.num 0.75), ("alpha_1_put", JVal.num 0.75),
          ("alpha_2_call", JVal.num 0.73), ("alpha_2_put", JVal.num 0.73),
          ("min_quality_score", JVal.num 75), ("min_confluence", JVal.num 4),
          ("volume_ratio_threshold", JVal.num 1.8),
          ("oi_change_velocity", JVal.num 100) ]),
    (4, [ ("alpha_1_call", JVal.num 0.70), ("alpha_1_put", JVal.num 0.70),
          ("alpha_2_call", JVal.num 0.68), ("alpha_2_put", JVal.num 0.68),
          ("min_quality_score", JVal.num 70), ("min_confluence", JVal.num 3),
          ("volume_ratio_threshold", JVal.num 1.5),
          ("oi_change_velocity", JVal.num 80) ]),
    (5, [ ("position_size_lots", JVal.num 1),
          ("max_risk_per_trade_pct", JVal.num 2),
          ("daily_loss_limit_pct", JVal.num 4),
          ("max_trades_per_day", JVal.num 3) ]),
    (6, [ ("profit_target_pct", JVal.num 30),
          ("time_exit", JVal.str "14:45"),
          ("mtm_max_loss", JVal.num 2500),
          ("mtm_protect_trigger", JVal.num 2000),
          ("mtm_protect_pct", JVal.num 0.6),
          ("min_hold_seconds", JVal.num 120) ]),
    (7, [ ("min_option_price", JVal.num 50),
          ("max_option_price", JVal.num 250),
          ("min_volume", JVal.num 50000),
          ("max_spread_pct", JVal.num 2),
          ("min_trend_strength", JVal.num 0.3),
          ("min_vix", JVal.num 11),
          ("min_oi_change_writing", JVal.num 500000) ]),
    (8, [ ("trading_start", JVal.str "09:20"),
          ("lunch_avoid_start", JVal.str "12:00"),
          ("lunch_avoid_end", JVal.str "13:00"),
          ("eod_squareoff", JVal.str "15:10"),
          ("market_close", JVal.str "15:30") ]) ]

/-! ## Theorems settling the claims -/

/-- Claim C3: the confluence factor catalogue is one fixed list of
exactly seven named factors, the same list drives the factor badges of
the CALL and PUT cards, and both confluence-count badges display the
fixed denominator 6, which differs from the catalogue's length. -/
theorem c3_confluence_catalogue (d : DashboardData) :
    CONFLUENCE_FACTORS.length = 7 ∧
    (callFactorBadges d).map Prod.fst = CONFLUENCE_FACTORS ∧
    (putFactorBadges d).map Prod.fst = CONFLUENCE_FACTORS ∧
    (callConfluenceBadge d).2 = 6 ∧
    (putConfluenceBadge d).2 = 6 ∧
    (callConfluenceBadge d).2 ≠ CONFLUENCE_FACTORS.length ∧
    (putConfluenceBadge d).2 ≠ CONFLUENCE_FACTORS.length := by
  exact ⟨rfl, rfl, rfl, rfl, rfl,
    by simp [callConfluenceBadge, CONFLUENCE_FACTORS],
    by simp [putConfluenceBadge, CONFLUENCE_FACTORS]⟩

/-- Claim C4: the PCR and RSI rows of the two signal cards are
mirrored — the CALL card's PCR row passes exactly when `pcr > 1.05` and
its RSI row exactly when `rsi < 75`, while the PUT card's PCR row
passes exactly when `pcr < 0.95` and its RSI row exactly when
`rsi > 25`; thresholds and comparison directions match the source. -/
theorem c4_mirrored_directional_predicates (d : DashboardData) (t : Thresholds) :
    ∃ rCallPcr rCallRsi rPutPcr rPutRsi : ConditionRow,
      (callConditions d t).find? (fun r => r.label == "PCR") = some rCallPcr ∧
      (rCallPcr.passed = true ↔ d.pcr > 1.05) ∧
      rCallPcr.comparison = .gt ∧ rCallPcr.threshold = 1.05 ∧
      (callConditions d t).find? (fun r => r.label == "RSI") = some rCallRsi ∧
      (rCallRsi.passed = true ↔ d.rsi < 75) ∧
      rCallRsi.comparison = .lt ∧ rCallRsi.threshold = 75 ∧
      (putConditions d t).find? (fun r => r.label == "PCR") = some rPutPcr ∧
      (rPutPcr.passed = true ↔ d.pcr < 0.95) ∧
      rPutPcr.comparison = .lt ∧ rPutPcr.threshold = 0.95 ∧
      (putConditions d t).find? (fun r => r.label == "RSI") = some rPutRsi ∧
      (rPutRsi.passed = true ↔ d.rsi > 25) ∧
      rPutRsi.comparison = .gt ∧ rPutRsi.threshold = 25 := by
  refine ⟨_, _, _, _, rfl, ?_, rfl, rfl, rfl, ?_, rfl, rfl,
    rfl, ?_, rfl, rfl, rfl, ?_, rfl, rfl⟩ <;> simp

/-- Claim C7: the orphan-resolution operation accepts exactly the three
outcomes RECOVER, EXIT and IGNORE, and every resolve-orphan request
body carries exactly one of the three action strings. -/
theorem c7_orphan_actions :
    (∀ a : OrphanAction, a ∈ allOrphanActions) ∧
    allOrphanActions.map orphanActionString = ["RECOVER", "EXIT", "IGNORE"] ∧
    (∀ (a : OrphanAction) (td : Option String),
      List.count (handleOrphanBody a td).action ["RECOVER", "EXIT", "IGNORE"] = 1) := by
  refine ⟨?_, rfl, ?_⟩
  · intro a
    cases a <;> simp [allOrphanActions]
  · intro a td
    cases a <;> rfl

/-- Claim C10: for `max ≠ min`, the fill percentage of `ProgressBar`
lies in `[0, 100]` (the raw ratio times 100 is clamped on both sides)
and the rendered bar width equals that clamped percentage. -/
theorem c10_progress_percentage_clamped (value mn mx : ℚ) (_h : mx ≠ mn) :
    0 ≤ progressPercentage value mn mx ∧
    progressPercentage value mn mx ≤ 100 ∧
    progressBarWidth value mn mx = progressPercentage value mn mx := by
  refine ⟨?_, ?_, rfl⟩
  · exact le_min (le_max_right _ _) (by norm_num)
  · exact min_le_right _ _

/-- Witness for C10 at a value far beyond the range: the percentage is
clamped to 100. -/
theorem c10_progress_percentage_clamped_witness :
    (100 : ℚ) ≠ 0 ∧
    (0 ≤ progressPercentage 150 0 100 ∧
     progressPercentage 150 0 100 ≤ 100 ∧
     progressBarWidth 150 0 100 = progressPercentage 150 0 100) :=
  ⟨by norm_num, c10_progress_percentage_clamped 150 0 100 (by norm_num)⟩

/-- Processing one more message first commutes with taking the latest
data message: helper for `c6_last_value_wins`. -/
theorem lastDataMessage_step (init : Option WsMessage) (m : WsMessage)
    (ms : List WsMessage) :
    lastDataMessage (onMessage init m) ms = lastDataMessage init (m :: ms) := by
  unfold lastDataMessage onMessage
  by_cases h : isDataMessage m
  · rcases hl : (ms.filter isDataMessage).getLast? with _ | x <;>
      simp [h, List.filter_cons, List.getLast?_cons, List.getLastD_eq_getLast?, hl]
  · simp [h, List.filter_cons]

/-- Claim C6: the snapshot held by the subscriber after processing any
sequence of received messages equals the most recently received message
whose type is neither `'ping'` nor `'pong'` — last-value-wins with
wholesale replacement and no queue — and ping/pong messages leave the
held snapshot unchanged. -/
theorem c6_last_value_wins (init : Option WsMessage) (msgs : List WsMessage) :
    processMessages init msgs = lastDataMessage init msgs ∧
    (∀ p : ℕ, onMessage init { type := "ping", payload := p } = init) ∧
    (∀ p : ℕ, onMessage init { type := "pong", payload := p } = init) := by
  refine ⟨?_, fun p => rfl, fun p => rfl⟩
  induction msgs generalizing init with
  | nil => rfl
  | cons m ms ih =>
    calc processMessages init (m :: ms)
        = processMessages (onMessage init m) ms := rfl
      _ = lastDataMessage (onMessage init m) ms := ih (onMessage init m)
      _ = lastDataMessage init (m :: ms) := lastDataMessage_step init m ms

/-- Partition helper for `c9_history_stats_partition`: every trade list
splits exactly into the strictly-positive-P&L part and the rest. -/
theorem length_filter_pos_add_length_filter_nonpos (l : List HistoryTrade) :
    (l.filter (fun t => decide (t.pnl_rupees > 0))).length
      + (l.filter (fun t => decide (t.pnl_rupees ≤ 0))).length = l.length := by
  induction l with
  | nil => rfl
  | cons t ts ih =>
    by_cases h : t.pnl_rupees > 0
    · have h1 : (decide (t.pnl_rupees > 0)) = true := decide_eq_true h
      have h2 : (decide (t.pnl_rupees ≤ 0)) = false :=
        decide_eq_false (not_le.mpr h)
      rw [List.filter_cons, List.filter_cons, h1, h2, if_pos rfl,
        if_neg Bool.false_ne_true]
      simp only [List.length_cons]
      omega
    · have h1 : (decide (t.pnl_rupees > 0)) = false := decide_eq_false h
      have h2 : (decide (t.pnl_rupees ≤ 0)) = true :=
        decide_eq_true (not_lt.mp h)
      rw [List.filter_cons, List.filter_cons, h1, h2, if_pos rfl,
        if_neg Bool.false_ne_true]
      simp only [List.length_cons]
      omega

/-- Claim C9: the history statistics partition the filtered trades
exactly (`wins + losses = totalTrades`); a trade counts as a win iff
its rupee P&L is strictly positive; a zero-P&L trade fails the `wins`
filter and passes the `losses` filter. -/
theorem c9_history_stats_partition (trades : List HistoryTrade)
    (filter : HistoryFilter) (dateFilter : String) :
    (historyStats (filteredTrades trades filter dateFilter)).wins
      + (historyStats (filteredTrades trades filter dateFilter)).losses
      = (historyStats (filteredTrades trades filter dateFilter)).totalTrades ∧
    (∀ t : HistoryTrade,
      t ∈ (filteredTrades trades filter dateFilter).filter
            (fun t2 => decide (t2.pnl_rupees > 0))
        ↔ t ∈ filteredTrades trades filter dateFilter ∧ t.pnl_rupees > 0) ∧
    (∀ t : HistoryTrade, t.pnl_rupees = 0 →
      tradePassesFilter .wins dateFilter t = false) ∧
    (∀ t : HistoryTrade, t.pnl_rupees = 0 → t ∈ trades →
      (dateFilter = "" ∨ t.date = dateFilter) →
      t ∈ filteredTrades trades .losses dateFilter) := by
  refine ⟨length_filter_pos_add_length_filter_nonpos _, ?_, ?_, ?_⟩
  · intro t
    simp [List.mem_filter]
  · intro t ht
    simp [tradePassesFilter, ht]
  · intro t ht htmem hdate
    have hpass : tradePassesFilter .losses dateFilter t = true := by
      rcases hdate with hd | hd <;> simp [tradePassesFilter, ht, hd]
    exact List.mem_filter.mpr ⟨htmem, hpass⟩

/-- A concrete zero-P&L trade used as C9's witness input. -/
def zeroPnlTrade : HistoryTrade :=
  { trade_id := 1, date := "2026-02-04", trade_type := "CALL",
    strike := 24000, entry_price := 100, exit_price := 100, qty := 75,
    pnl_rupees := 0, pnl_percent := 0, exit_reason := "time_exit",
    signal_path := "BUYING" }

/-- Witness for C9: on a one-trade list whose trade has zero P&L, the
trade fails the `wins` filter and passes the `losses` filter. -/
theorem c9_history_stats_partition_witness :
    tradePassesFilter .wins "" zeroPnlTrade = false ∧
    zeroPnlTrade ∈ filteredTrades [zeroPnlTrade] .losses "" :=
  ⟨(c9_history_stats_partition [zeroPnlTrade] .all "").2.2.1 zeroPnlTrade rfl,
   (c9_history_stats_partition [zeroPnlTrade] .all "").2.2.2 zeroPnlTrade rfl
     (List.mem_singleton.mpr rfl) (Or.inl rfl)⟩

/-- Claim C2: on every tick the exit conditions are evaluated in the
fixed priority order (emergency, max mark-to-market loss, stop crossed,
time exit, profit target, profit protection, non-urgent manual exit,
with conditions 3–7 gated by the minimum hold), the first true
condition fires and its reason is recorded; in particular when stop
crossed and profit target are simultaneously true, the stop reason is
recorded. -/
theorem c2_exit_priority (s : ExitTickState) :
    checkExitConditions s = firstFiring (prioritizedConditions s) ∧
    (minHoldElapsed s = true → s.emergencyExitRequested = false →
      condMtmMaxLoss s = false → condStopCrossed s = true →
      condProfitTarget s = true →
      checkExitConditions s = some (stopReason s)) := by
  constructor
  · unfold checkExitConditions firstFiring prioritizedConditions
    cases s.emergencyExitRequested <;> cases condMtmMaxLoss s <;>
      cases minHoldElapsed s <;> cases condStopCrossed s <;>
      cases condTimeExit s <;> cases condProfitTarget s <;>
      cases condProfitProtection s <;> cases s.manualExitRequested <;> rfl
  · intro h1 h2 h3 h4 _h5
    simp [checkExitConditions, h1, h2, h3, h4]

/-- A tick on which the price has crossed the trailing stop and the
profit target is simultaneously reached (minimum hold elapsed, no
emergency or max-loss condition): C2's witness input. -/
def exitWitnessState : ExitTickState :=
  { emergencyExitRequested := false, manualExitRequested := false,
    mtmLoss := 0, mtmMaxLoss := 2500,
    price := 95, stopPrice := 100, trailingActive := true,
    now := 600, timeExitAt := 885,
    profitPct := 35, profitTargetPct := 30,
    mtm := 500, peakMtm := 1000, protectTrigger := 2000, protectPct := 0.6,
    holdSeconds := 300, minHoldSeconds := 120 }

/-- Witness for C2: with stop crossed and profit target both true, the
recorded exit reason is the (trailing) stop, not the profit target. -/
theorem c2_exit_priority_witness :
    condStopCrossed exitWitnessState = true ∧
    condProfitTarget exitWitnessState = true ∧
    checkExitConditions exitWitnessState = some ExitReason.trailing_stop :=
  ⟨by decide, by decide,
   (c2_exit_priority exitWitnessState).2 (by decide) rfl (by decide)
     (by decide) (by decide)⟩

/-- Claim C8: `handleStart` issues an engine-start request with LIVE
execution mode only when the confirmation text is exactly `CONFIRM`;
for every other text under LIVE it issues no start request and sets the
validation error, while OFF and PAPER start regardless of the
confirmation text. -/
theorem c8_live_confirm_gate (token : String) (capital : ℚ) (broker : Broker)
    (dhanToken dhanClientId : String) (executionMode : ExecutionMode)
    (confirmText : String) (hasOrphan startOk : Bool) :
    ((handleStart token capital executionMode broker dhanToken dhanClientId
        confirmText hasOrphan startOk).any SetupEvent.isStartRequest = true
      ↔ (executionMode ≠ .LIVE ∨ confirmText = "CONFIRM")) ∧
    (executionMode = .LIVE → confirmText ≠ "CONFIRM" →
      handleStart token capital executionMode broker dhanToken dhanClientId
          confirmText hasOrphan startOk
        = [SetupEvent.validationError
            "Please type CONFIRM to enable live trading"]) ∧
    ((executionMode = .OFF ∨ executionMode = .PAPER) →
      (handleStart token capital executionMode broker dhanToken dhanClientId
        confirmText hasOrphan startOk).any SetupEvent.isStartRequest = true) := by
  by_cases hc : executionMode = .LIVE ∧ confirmText ≠ "CONFIRM"
  · refine ⟨?_, fun _ _ => by simp [handleStart, hc], fun hmode => ?_⟩
    · simp [handleStart, hc, SetupEvent.isStartRequest, hc.1, hc.2]
    · rcases hmode with hm | hm <;> rw [hm] at hc <;> exact absurd hc.1 (by decide)
  · refine ⟨?_, fun hl ht => absurd ⟨hl, ht⟩ hc, fun _ => ?_⟩ <;>
      cases hs : startOk <;>
      simp [handleStart, hc, SetupEvent.isStartRequest, hs] <;>
      tauto

/-- Witness for C8: under LIVE with a wrong confirmation text only the
validation error is produced, while OFF with an empty confirmation text
issues the start request. -/
theorem c8_live_confirm_gate_witness :
    handleStart "tok" 100000 .LIVE .UPSTOX "" "" "confirm" true true
      = [SetupEvent.validationError
          "Please type CONFIRM to enable live trading"] ∧
    (handleStart "tok" 100000 .OFF .UPSTOX "" "" "" true true).any
      SetupEvent.isStartRequest = true :=
  ⟨(c8_live_confirm_gate "tok" 100000 .UPSTOX "" "" .LIVE "confirm" true
      true).2.1 rfl (by decide),
   (c8_live_confirm_gate "tok" 100000 .UPSTOX "" "" .OFF "" true
      true).2.2 (Or.inl rfl)⟩

/-- Claim C1 (code behaviour at the failing input): on a startup whose
orphan check reports an orphan, `handleStart` issues the engine-start
request *before* the orphan check, then simply navigates to the
dashboard — the trace contains no resolve-orphan step at all, so
trading starts before the orphan is resolved. -/
theorem c1_start_precedes_orphan_resolution :
    handleStart "token" 100000 .OFF .UPSTOX "" "" "" true true
      = [SetupEvent.setStep "starting",
         SetupEvent.startRequest
           { token := "token", capital := 100000, execution_mode := .OFF,
             broker := .UPSTOX, dhan_token := none, dhan_client_id := none },
         SetupEvent.orphanCheck true,
         SetupEvent.navigate "/dashboard"] ∧
    (handleStart "token" 100000 .OFF .UPSTOX "" "" "" true true).all
      (fun e => !e.isResolveOrphan) = true :=
  ⟨rfl, rfl⟩

/-- Counterexample to claim C5 as stated: editing the nested field
`RISK.max_trades_per_day` through `updateValue` changes what the
*previously held* configuration object reads at that path — the shallow
spread shares the nested section object, which is then mutated in
place. -/
theorem c5_counterexample :
    ∃ p : Heap × Addr,
      updateValue settingsHeap 0 ["RISK", "max_trades_per_day"]
        (JVal.num 5) 10 = some p ∧
      readPath p.1 0 ["RISK", "max_trades_per_day"]
        ≠ readPath settingsHeap 0 ["RISK", "max_trades_per_day"] :=
  ⟨_, rfl, by decide⟩

/-- Claim C5 (amended): a save sends the configuration as one whole
document; a single-field edit hands `setConfig` a fresh top-level
object, and an edit of a top-level field leaves the previously held
configuration unchanged; but the nested per-section objects are shared
between old and new configuration and are mutated in place, so after a
nested-field edit the old configuration object reads the new value. -/
theorem c5_config_update_semantics (v : JVal) :
    (∃ p : Heap × Addr,
       updateValue settingsHeap 0 ["ACTIVE_MODE"] v 10 = some p ∧
       p.2 = 10 ∧ 0 < p.2 ∧
       readPath p.1 10 ["ACTIVE_MODE"] = some v ∧
       readPath p.1 0 ["ACTIVE_MODE"] = some (JVal.str "BALANCED") ∧
       readPath p.1 0 ["RISK", "max_trades_per_day"]
         = readPath settingsHeap 0 ["RISK", "max_trades_per_day"]) ∧
    (∃ p : Heap × Addr,
       updateValue settingsHeap 0 ["RISK", "max_trades_per_day"] v 10
         = some p ∧
       p.2 = 10 ∧
       readPath p.1 10 ["RISK", "max_trades_per_day"] = some v ∧
       readPath p.1 0 ["RISK", "max_trades_per_day"] = some v) ∧
    (∃ fields : List (String × JTree),
       handleSaveBody settingsHeap 0 3 = JTree.node fields ∧
       fields.map Prod.fst
         = ["ACTIVE_MODE", "EXPIRY", "MODES", "RISK", "EXIT", "FILTERS",
            "TIMING", "REFRESH_INTERVAL_SECONDS"]) :=
  ⟨⟨_, rfl, rfl, Nat.succ_pos 9, rfl, rfl, rfl⟩,
   ⟨_, rfl, rfl, rfl, rfl⟩,
   ⟨_, rfl, rfl⟩⟩

end SkewHunter
